import Mathlib

/-!
# Verification of the go-congress client (package `congress`)

Shallow embedding of `src/congress/client.go`, a client library for the
ProPublica Congress API.  Every operation follows the same pattern:

  1. build a request URL by `fmt.Sprintf` over the client's endpoint,
  2. attach the API key as the `X-API-Key` header,
  3. execute the request (`client.Do`),
  4. read the whole body (`ioutil.ReadAll`),
  5. `json.Unmarshal` the body into a response envelope,
  6. extract the entity list from the envelope's `results` field.

The effectful library calls (URL parsing inside `http.NewRequest`,
`client.Do`, `ReadAll`, `json.Unmarshal`) are modelled by an oracle
record `World`: each field is a function giving the outcome of the
corresponding library call on its input.  `json.Unmarshal` is a pure
function of the body bytes, so one oracle function per target envelope
type is faithful.  Failure messages carried by the oracles are plain
strings; the operation wraps them in the error category of the call
that produced them (`GoError.transport` for request construction,
network and body-read failures, `GoError.decode` for unmarshal
failures), mirroring the spec's two error kinds.

Go `float32` fields are modelled as `Rat`; no claim depends on
floating-point rounding.  Go named return values start at their zero
value and are returned as-is by a bare `return`, which the embeddings
reproduce (in particular `GetMember` returns the zero `MemberDetails`
when `results` is empty, and `GetMembersByState` returns the house
members alongside the error when the senate sub-call fails).
-/

/-- `Client` from `client.go`: connection information for the API. -/
structure Client where
  Endpoint : String
  Key : String
  deriving Repr, DecidableEq

/-- `TrackingIDs` from `client.go`: IDs of a politician across tracking sites. -/
structure TrackingIDs where
  govtrack : String
  cspan : String
  votesmart : String
  icpsr : String
  crp : String
  google : String
  website : String
  rss : String
  deriving Repr, DecidableEq

/-- `Member` from `client.go`: fields sent no matter which method requested the data. -/
structure Member where
  firstName : String
  middleName : String
  lastName : String
  suffix : String
  twitter : String
  facebook : String
  youtube : String
  url : String
  trackingIDs : TrackingIDs
  deriving Repr, DecidableEq

/-- `MemberCommittee` from `client.go`: a politician's role on a committee. -/
structure MemberCommittee where
  name : String
  code : String
  url : String
  side : String
  title : String
  partyRank : Int
  beginDate : String
  endDate : String
  deriving Repr, DecidableEq

/-- `MemberSubcommittee` from `client.go`. -/
structure MemberSubcommittee where
  memberCommittee : MemberCommittee
  parent : String
  deriving Repr, DecidableEq

/-- `MemberRole` from `client.go`: positions in a single chamber of a single Congress. -/
structure MemberRole where
  congress : String
  chamber : String
  title : String
  shortTitle : String
  state : String
  party : String
  leadership : String
  fec : String
  seniority : String
  district : String
  atLarge : Bool
  ocd : String
  startDate : String
  endDate : String
  office : String
  phone : String
  fax : String
  contact : String
  sponsored : Int
  cosponsored : Int
  missedVotesPct : Rat
  votesWithParty : Rat
  committees : List MemberCommittee
  deriving Repr, DecidableEq

/-- `MemberSummary` from `client.go`: a member as part of a collection. -/
structure MemberSummary where
  member : Member
  id : String
  birth : String
  state : String
  title : String
  shortTitle : String
  inOffice : Bool
  senateClass : String
  stateRank : String
  party : String
  leadership : String
  office : String
  phone : String
  fax : String
  trackingIDs : TrackingIDs
  contact : String
  totalVotes : Int
  missedVotes : Int
  presentVotes : Int
  nextElection : String
  seniority : String
  missedVotesPct : Rat
  votesWithParty : Rat
  lis : String
  fec : String
  dwNominate : Rat
  idealPoint : String
  ocd : String
  deriving Repr, DecidableEq

/-- `MemberDetails` from `client.go`: a member requested specifically by ID. -/
structure MemberDetails where
  member : Member
  id : String
  birth : String
  gender : String
  party : String
  state : String
  inOffice : Bool
  timesTopics : String
  timesTag : String
  mostRecentVote : String
  roles : List MemberRole
  trackingIDs : TrackingIDs
  deriving Repr, DecidableEq

/-- `MemberSearch` from `client.go`: a member in a state-specific search. -/
structure MemberSearch where
  member : Member
  id : String
  name : String
  title : String
  gender : String
  party : String
  timesTopics : String
  seniority : String
  nextElection : String
  url : String
  deriving Repr, DecidableEq

/-- `MemberInTransition` from `client.go`: a member who is new or leaving office. -/
structure MemberInTransition where
  id : String
  firstName : String
  middleName : String
  lastName : String
  suffix : String
  party : String
  chamber : String
  state : String
  district : String
  startDate : String
  url : String
  endDate : String
  status : String
  note : String
  deriving Repr, DecidableEq

/-- Go zero value of `TrackingIDs`. -/
def TrackingIDs.zero : TrackingIDs :=
  { govtrack := "", cspan := "", votesmart := "", icpsr := "", crp := ""
    google := "", website := "", rss := "" }

/-- Go zero value of `Member`. -/
def Member.zero : Member :=
  { firstName := "", middleName := "", lastName := "", suffix := ""
    twitter := "", facebook := "", youtube := "", url := ""
    trackingIDs := TrackingIDs.zero }

/-- Go zero value of `MemberDetails` (the initial value of `GetMember`'s named
return `member`): every field is the empty string, `false`, or the empty list. -/
def MemberDetails.zero : MemberDetails :=
  { member := Member.zero, id := "", birth := "", gender := "", party := ""
    state := "", inOffice := false, timesTopics := "", timesTag := ""
    mostRecentVote := "", roles := [], trackingIDs := TrackingIDs.zero }

/-- Go zero value of `MemberSearch`. -/
def MemberSearch.zero : MemberSearch :=
  { member := Member.zero, id := "", name := "", title := "", gender := ""
    party := "", timesTopics := "", seniority := "", nextElection := "", url := "" }

/-- Go zero value of `MemberInTransition`. -/
def MemberInTransition.zero : MemberInTransition :=
  { id := "", firstName := "", middleName := "", lastName := "", suffix := ""
    party := "", chamber := "", state := "", district := "", startDate := ""
    url := "", endDate := "", status := "", note := "" }

/-- Go zero value of `MemberSummary`. -/
def MemberSummary.zero : MemberSummary :=
  { member := Member.zero, id := "", birth := "", state := "", title := ""
    shortTitle := "", inOffice := false, senateClass := "", stateRank := ""
    party := "", leadership := "", office := "", phone := "", fax := ""
    trackingIDs := TrackingIDs.zero, contact := "", totalVotes := 0
    missedVotes := 0, presentVotes := 0, nextElection := "", seniority := ""
    missedVotesPct := 0, votesWithParty := 0, lis := "", fec := ""
    dwNominate := 0, idealPoint := "", ocd := "" }

/-- `getMembersResults` from `client.go`: one group inside the "get members" envelope. -/
structure getMembersResults where
  congress : String
  chamber : String
  resultCount : Int
  offset : Int
  members : List MemberSummary
  deriving Repr, DecidableEq

/-- `getMembersResponse` from `client.go`: the "get members" envelope. -/
structure getMembersResponse where
  status : String
  copyright : String
  results : List getMembersResults
  deriving Repr, DecidableEq

/-- `getMemberResponse` from `client.go`: the "get member" envelope. -/
structure getMemberResponse where
  status : String
  copyright : String
  results : List MemberDetails
  deriving Repr, DecidableEq

/-- `getMembersByStateResponse` from `client.go`: the "members by state/district" envelope. -/
structure getMembersByStateResponse where
  status : String
  copyright : String
  results : List MemberSearch
  deriving Repr, DecidableEq

/-- `getMembersInTransitionResults` from `client.go`: one group inside the
new/departing members envelope. -/
structure getMembersInTransitionResults where
  members : List MemberInTransition
  congress : String
  chamber : String
  deriving Repr, DecidableEq

/-- `getMembersInTransitionResponse` from `client.go`: the new/departing members envelope. -/
structure getMembersInTransitionResponse where
  status : String
  copyright : String
  results : List getMembersInTransitionResults
  deriving Repr, DecidableEq

/-- An HTTP request as built by `http.NewRequest` plus `Header.Add`. -/
structure Request where
  method : String
  url : String
  headers : List (String × String)
  deriving Repr, DecidableEq

/-- An HTTP response: the status code (which the client never inspects) and the
outcome of reading the body stream to the end (`ioutil.ReadAll(resp.Body)`),
which either yields the body bytes or fails mid-read. -/
structure HttpResponse where
  statusCode : Int
  bodyRead : Except String String
  deriving Repr

/-- The two error kinds of the spec: `transport` for request construction,
network and body-read failures; `decode` for unmarshal failures. -/
inductive GoError where
  | transport (msg : String)
  | decode (msg : String)
  deriving Repr, DecidableEq

/-- Oracle for the effectful library calls made by the client.  `urlErr` gives
the URL-parse failure of `http.NewRequest` (if any); `send` is `client.Do`;
the `unmarshal*` fields are `json.Unmarshal` at each envelope type (a pure
function of the body bytes). -/
structure World where
  urlErr : String → Option String
  send : Request → Except String HttpResponse
  unmarshalMembers : String → Except String getMembersResponse
  unmarshalMember : String → Except String getMemberResponse
  unmarshalMembersByState : String → Except String getMembersByStateResponse
  unmarshalTransition : String → Except String getMembersInTransitionResponse

/-- `http.NewRequest(method, url, nil)`: fails iff the URL does not parse;
on success the request carries the method and URL and no headers yet. -/
def newRequest (w : World) (method url : String) : Except String Request :=
  match w.urlErr url with
  | some e => .error e
  | none => .ok { method := method, url := url, headers := [] }

/-- `req.Header.Add(k, v)`. -/
def Request.addHeader (r : Request) (k v : String) : Request :=
  { r with headers := r.headers ++ [(k, v)] }

/-- Rendered path template of `GetMembers`: `/{congress}/{chamber}/members.json`. -/
def membersPath (congress : Int) (chamber : String) : String :=
  "/" ++ toString congress ++ "/" ++ chamber ++ "/members.json"

/-- Rendered path template of `GetMember`: `/members/{id}.json`. -/
def memberPath (id : String) : String :=
  "/members/" ++ id ++ ".json"

/-- Rendered path template of `GetChamberMembersByState`:
`/members/{chamber}/{state}/current.json`. -/
def chamberStatePath (chamber state : String) : String :=
  "/members/" ++ chamber ++ "/" ++ state ++ "/current.json"

/-- Rendered path template of `GetChamberMembersByDistrict`:
`/members/{chamber}/{state}/{district}/current.json`. -/
def chamberDistrictPath (chamber state : String) (district : Int) : String :=
  "/members/" ++ chamber ++ "/" ++ state ++ "/" ++ toString district ++ "/current.json"

/-- Rendered path template of `GetNewMembers`: `/members/new.json`. -/
def newMembersPath : String :=
  "/members/new.json"

/-- Rendered path template of `GetDepartingMembers`:
`/{congress}/{chamber}/members/leaving.json`. -/
def leavingPath (congress : Int) (chamber : String) : String :=
  "/" ++ toString congress ++ "/" ++ chamber ++ "/members/leaving.json"

/-- Lines 245-261 of `GetMembers`: handle the `client.Do` outcome — read the
body, unmarshal, and if `results` is non-empty return the first group's
`Members`; the named return `members` stays `nil` on every error path. -/
def getMembersHandle (w : World) (r : Except String HttpResponse) :
    List MemberSummary × Option GoError :=
  match r with
  | .error e => ([], some (GoError.transport e))
  | .ok resp =>
    match resp.bodyRead with
    | .error e => ([], some (GoError.transport e))
    | .ok body =>
      match w.unmarshalMembers body with
      | .error e => ([], some (GoError.decode e))
      | .ok unmarshaled =>
        match unmarshaled.results with
        | [] => ([], none)
        | g :: _ => (g.members, none)

/-- `GetMembers(congress, chamber)` from `client.go`. -/
def GetMembers (w : World) (c : Client) (congress : Int) (chamber : String) :
    List MemberSummary × Option GoError :=
  match newRequest w "GET"
      (c.Endpoint ++ "/" ++ toString congress ++ "/" ++ chamber ++ "/members.json") with
  | .error e => ([], some (GoError.transport e))
  | .ok req => getMembersHandle w (w.send (req.addHeader "X-API-Key" c.Key))

/-- Lines 281-298 of `GetMember`: handle the `client.Do` outcome — the named
return `member` stays the zero `MemberDetails` unless `results` is non-empty. -/
def getMemberHandle (w : World) (r : Except String HttpResponse) :
    MemberDetails × Option GoError :=
  match r with
  | .error e => (MemberDetails.zero, some (GoError.transport e))
  | .ok resp =>
    match resp.bodyRead with
    | .error e => (MemberDetails.zero, some (GoError.transport e))
    | .ok body =>
      match w.unmarshalMember body with
      | .error e => (MemberDetails.zero, some (GoError.decode e))
      | .ok unmarshaled =>
        match unmarshaled.results with
        | [] => (MemberDetails.zero, none)
        | m :: _ => (m, none)

/-- `GetMember(id)` from `client.go`. -/
def GetMember (w : World) (c : Client) (id : String) :
    MemberDetails × Option GoError :=
  match newRequest w "GET" (c.Endpoint ++ "/members/" ++ id ++ ".json") with
  | .error e => (MemberDetails.zero, some (GoError.transport e))
  | .ok req => getMemberHandle w (w.send (req.addHeader "X-API-Key" c.Key))

/-- Lines 317-333 (and 359-375) : handle the `client.Do` outcome for the
members-by-state/district envelope — on success `members = unmarshaled.Results`
verbatim. -/
def membersByStateHandle (w : World) (r : Except String HttpResponse) :
    List MemberSearch × Option GoError :=
  match r with
  | .error e => ([], some (GoError.transport e))
  | .ok resp =>
    match resp.bodyRead with
    | .error e => ([], some (GoError.transport e))
    | .ok body =>
      match w.unmarshalMembersByState body with
      | .error e => ([], some (GoError.decode e))
      | .ok unmarshaled => (unmarshaled.results, none)

/-- `GetChamberMembersByState(state, chamber)` from `client.go`. -/
def GetChamberMembersByState (w : World) (c : Client) (state chamber : String) :
    List MemberSearch × Option GoError :=
  match newRequest w "GET"
      (c.Endpoint ++ "/members/" ++ chamber ++ "/" ++ state ++ "/current.json") with
  | .error e => ([], some (GoError.transport e))
  | .ok req => membersByStateHandle w (w.send (req.addHeader "X-API-Key" c.Key))

/-- `GetChamberMembersByDistrict(state, district, chamber)` from `client.go`. -/
def GetChamberMembersByDistrict (w : World) (c : Client) (state : String)
    (district : Int) (chamber : String) : List MemberSearch × Option GoError :=
  match newRequest w "GET"
      (c.Endpoint ++ "/members/" ++ chamber ++ "/" ++ state ++ "/"
        ++ toString district ++ "/current.json") with
  | .error e => ([], some (GoError.transport e))
  | .ok req => membersByStateHandle w (w.send (req.addHeader "X-API-Key" c.Key))

/-- `GetMembersByState(state)` from `client.go`: calls the house chamber, then
the senate chamber, and appends.  The named returns make a bare `return` after
a failed senate call hand back the already-assigned house members together with
the senate error. -/
def GetMembersByState (w : World) (c : Client) (state : String) :
    List MemberSearch × Option GoError :=
  match GetChamberMembersByState w c state "house" with
  | (members, some e) => (members, some e)
  | (members, none) =>
    match GetChamberMembersByState w c state "senate" with
    | (_, some e) => (members, some e)
    | (senate, none) => (members ++ senate, none)

/-- Lines 408-425 of `GetNewMembers`: handle the `client.Do` outcome — if
`results` is non-empty return the first group's `Members`. -/
def newMembersHandle (w : World) (r : Except String HttpResponse) :
    List MemberInTransition × Option GoError :=
  match r with
  | .error e => ([], some (GoError.transport e))
  | .ok resp =>
    match resp.bodyRead with
    | .error e => ([], some (GoError.transport e))
    | .ok body =>
      match w.unmarshalTransition body with
      | .error e => ([], some (GoError.decode e))
      | .ok unmarshaled =>
        match unmarshaled.results with
        | [] => ([], none)
        | g :: _ => (g.members, none)

/-- `GetNewMembers()` from `client.go`. -/
def GetNewMembers (w : World) (c : Client) :
    List MemberInTransition × Option GoError :=
  match newRequest w "GET" (c.Endpoint ++ "/members/new.json") with
  | .error e => ([], some (GoError.transport e))
  | .ok req => newMembersHandle w (w.send (req.addHeader "X-API-Key" c.Key))

/-- Extraction step of `GetDepartingMembers` (lines 450-455): the two
length-guarded assignments `if len > 0 { members = Results[0].Members }` and
`if len > 1 { members = append(members, Results[1].Members...) }` — i.e. the
concatenation of the first group's and, when present, the second group's
members; any further groups are never touched. -/
def departingExtract (results : List getMembersInTransitionResults) :
    List MemberInTransition :=
  match results with
  | [] => []
  | [g] => g.members
  | g₁ :: g₂ :: _ => g₁.members ++ g₂.members

/-- Lines 437-456 of `GetDepartingMembers`: handle the `client.Do` outcome. -/
def departingHandle (w : World) (r : Except String HttpResponse) :
    List MemberInTransition × Option GoError :=
  match r with
  | .error e => ([], some (GoError.transport e))
  | .ok resp =>
    match resp.bodyRead with
    | .error e => ([], some (GoError.transport e))
    | .ok body =>
      match w.unmarshalTransition body with
      | .error e => ([], some (GoError.decode e))
      | .ok unmarshaled => (departingExtract unmarshaled.results, none)

/-- `GetDepartingMembers(congress, chamber)` from `client.go`. -/
def GetDepartingMembers (w : World) (c : Client) (congress : Int) (chamber : String) :
    List MemberInTransition × Option GoError :=
  match newRequest w "GET"
      (c.Endpoint ++ "/" ++ toString congress ++ "/" ++ chamber
        ++ "/members/leaving.json") with
  | .error e => ([], some (GoError.transport e))
  | .ok req => departingHandle w (w.send (req.addHeader "X-API-Key" c.Key))

/-! ## Helper definitions for the theorems -/

/-- The request every operation ends up issuing: a `GET` on the given URL with
the API key attached as the single `X-API-Key` header. -/
def apiRequest (url key : String) : Request :=
  { method := "GET", url := url, headers := [("X-API-Key", key)] }

theorem addHeader_api (u k : String) :
    ({ method := "GET", url := u, headers := [] } : Request).addHeader "X-API-Key" k
      = apiRequest u k := by
  simp [Request.addHeader, apiRequest]

theorem membersUrl (e : String) (n : Int) (ch : String) :
    e ++ "/" ++ toString n ++ "/" ++ ch ++ "/members.json" = e ++ membersPath n ch := by
  simp [membersPath, String.append_assoc]

theorem memberUrl (e id : String) :
    e ++ "/members/" ++ id ++ ".json" = e ++ memberPath id := by
  simp [memberPath, String.append_assoc]

theorem chamberStateUrl (e ch st : String) :
    e ++ "/members/" ++ ch ++ "/" ++ st ++ "/current.json" = e ++ chamberStatePath ch st := by
  simp [chamberStatePath, String.append_assoc]

theorem chamberDistrictUrl (e ch st : String) (d : Int) :
    e ++ "/members/" ++ ch ++ "/" ++ st ++ "/" ++ toString d ++ "/current.json"
      = e ++ chamberDistrictPath ch st d := by
  simp [chamberDistrictPath, String.append_assoc]

theorem newMembersUrl (e : String) :
    e ++ "/members/new.json" = e ++ newMembersPath := by
  simp [newMembersPath]

theorem leavingUrl (e : String) (n : Int) (ch : String) :
    e ++ "/" ++ toString n ++ "/" ++ ch ++ "/members/leaving.json" = e ++ leavingPath n ch := by
  simp [leavingPath, String.append_assoc]

/-! ## Concrete clients, envelopes and worlds used by witnesses and
counterexamples -/

def cexClient : Client :=
  { Endpoint := "https://api.example", Key := "secret" }

/-- A 200 response whose body reads fully as `body`. -/
def okResp (body : String) : HttpResponse :=
  { statusCode := 200, bodyRead := .ok body }

def emptyMembersEnv : getMembersResponse :=
  { status := "OK", copyright := "c", results := [] }

def emptyMemberEnv : getMemberResponse :=
  { status := "OK", copyright := "c", results := [] }

def emptyByStateEnv : getMembersByStateResponse :=
  { status := "OK", copyright := "c", results := [] }

def emptyTransitionEnv : getMembersInTransitionResponse :=
  { status := "OK", copyright := "c", results := [] }

/-- A world where every request succeeds and every body unmarshals to an
envelope with an empty `results` list. -/
def wAllEmpty : World :=
  { urlErr := fun _ => none
    send := fun _ => .ok (okResp "BODY")
    unmarshalMembers := fun _ => .ok emptyMembersEnv
    unmarshalMember := fun _ => .ok emptyMemberEnv
    unmarshalMembersByState := fun _ => .ok emptyByStateEnv
    unmarshalTransition := fun _ => .ok emptyTransitionEnv }

def oneSearchEnv : getMembersByStateResponse :=
  { status := "OK", copyright := "c", results := [MemberSearch.zero] }

/-- A world where the members-by-state envelope holds one search result. -/
def wByState : World :=
  { wAllEmpty with unmarshalMembersByState := fun _ => .ok oneSearchEnv }

def twoGroupMembersEnv : getMembersResponse :=
  { status := "OK", copyright := "c", results :=
      [ { congress := "115", chamber := "senate", resultCount := 1, offset := 0,
          members := [MemberSummary.zero] },
        { congress := "115", chamber := "house", resultCount := 2, offset := 0,
          members := [MemberSummary.zero, MemberSummary.zero] } ] }

def twoGroupTransitionEnv : getMembersInTransitionResponse :=
  { status := "OK", copyright := "c", results :=
      [ { members := [MemberInTransition.zero], congress := "115", chamber := "house" },
        { members := [MemberInTransition.zero, MemberInTransition.zero],
          congress := "115", chamber := "senate" } ] }

/-- A world whose first-group envelopes have two groups, to exhibit that
only the first group is used. -/
def wFirstGroup : World :=
  { wAllEmpty with
    unmarshalMembers := fun _ => .ok twoGroupMembersEnv
    unmarshalTransition := fun _ => .ok twoGroupTransitionEnv }

/-! ## Claim C3 -/

/-- C3: for every well-formed envelope decoded with the direct-list strategy,
`GetChamberMembersByState` and `GetChamberMembersByDistrict` return exactly the
entities of the envelope's `results` list, in order, with no entity dropped or
duplicated, and no error. -/
theorem direct_list_returns_results_exactly (w : World) (c : Client)
    (state chamber : String) (district : Int)
    {resp₁ resp₂ : HttpResponse} {body₁ body₂ : String}
    {env₁ env₂ : getMembersByStateResponse}
    (hurl₁ : w.urlErr (c.Endpoint ++ chamberStatePath chamber state) = none)
    (hsend₁ : w.send (apiRequest (c.Endpoint ++ chamberStatePath chamber state) c.Key)
      = .ok resp₁)
    (hbody₁ : resp₁.bodyRead = .ok body₁)
    (hdec₁ : w.unmarshalMembersByState body₁ = .ok env₁)
    (hurl₂ : w.urlErr (c.Endpoint ++ chamberDistrictPath chamber state district) = none)
    (hsend₂ : w.send (apiRequest (c.Endpoint ++ chamberDistrictPath chamber state district)
      c.Key) = .ok resp₂)
    (hbody₂ : resp₂.bodyRead = .ok body₂)
    (hdec₂ : w.unmarshalMembersByState body₂ = .ok env₂) :
    GetChamberMembersByState w c state chamber = (env₁.results, none)
      ∧ GetChamberMembersByDistrict w c state district chamber = (env₂.results, none) := by
  constructor
  · simp [GetChamberMembersByState, newRequest, addHeader_api, chamberStateUrl,
      membersByStateHandle, hurl₁, hsend₁, hbody₁, hdec₁]
  · simp [GetChamberMembersByDistrict, newRequest, addHeader_api, chamberDistrictUrl,
      membersByStateHandle, hurl₂, hsend₂, hbody₂, hdec₂]

/-- Witness for C3 at a concrete world whose envelope holds one entity. -/
theorem direct_list_returns_results_exactly_witness :
    GetChamberMembersByState wByState cexClient "nj" "house" = ([MemberSearch.zero], none)
      ∧ GetChamberMembersByDistrict wByState cexClient "nj" 3 "house"
        = ([MemberSearch.zero], none) :=
  direct_list_returns_results_exactly wByState cexClient "nj" "house" 3
    rfl rfl rfl rfl rfl rfl rfl rfl

/-! ## Claim C4 -/

/-- C4: for every well-formed envelope decoded with the first-group strategy,
`GetMembers` and `GetNewMembers` return exactly the entity list nested in the
first `results` group and ignore any subsequent groups (the groups `restA`,
`restN` are arbitrary and absent from the result). -/
theorem first_group_strategy_returns_first_group (w : World) (c : Client)
    (congress : Int) (chamber : String)
    {respA respN : HttpResponse} {bodyA bodyN : String}
    {envA : getMembersResponse} {gA : getMembersResults} {restA : List getMembersResults}
    {envN : getMembersInTransitionResponse} {gN : getMembersInTransitionResults}
    {restN : List getMembersInTransitionResults}
    (hurlA : w.urlErr (c.Endpoint ++ membersPath congress chamber) = none)
    (hsendA : w.send (apiRequest (c.Endpoint ++ membersPath congress chamber) c.Key)
      = .ok respA)
    (hbodyA : respA.bodyRead = .ok bodyA)
    (hdecA : w.unmarshalMembers bodyA = .ok envA)
    (hresA : envA.results = gA :: restA)
    (hurlN : w.urlErr (c.Endpoint ++ newMembersPath) = none)
    (hsendN : w.send (apiRequest (c.Endpoint ++ newMembersPath) c.Key) = .ok respN)
    (hbodyN : respN.bodyRead = .ok bodyN)
    (hdecN : w.unmarshalTransition bodyN = .ok envN)
    (hresN : envN.results = gN :: restN) :
    GetMembers w c congress chamber = (gA.members, none)
      ∧ GetNewMembers w c = (gN.members, none) := by
  constructor
  · simp [GetMembers, newRequest, addHeader_api, membersUrl, getMembersHandle,
      hurlA, hsendA, hbodyA, hdecA, hresA]
  · simp [GetNewMembers, newRequest, addHeader_api, newMembersUrl, newMembersHandle,
      hurlN, hsendN, hbodyN, hdecN, hresN]

/-- Witness for C4 at a concrete world whose envelopes have two groups: only
the first group's members come back. -/
theorem first_group_strategy_returns_first_group_witness :
    GetMembers wFirstGroup cexClient 115 "senate" = ([MemberSummary.zero], none)
      ∧ GetNewMembers wFirstGroup cexClient = ([MemberInTransition.zero], none) :=
  first_group_strategy_returns_first_group wFirstGroup cexClient 115 "senate"
    rfl rfl rfl rfl rfl rfl rfl rfl rfl rfl

/-! ## Claim C5 -/

/-- C5: for every well-formed envelope whose `results` list is empty, every
list-returning operation — `GetMembers`, `GetChamberMembersByState`,
`GetChamberMembersByDistrict`, `GetNewMembers`, `GetDepartingMembers`, and the
composite `GetMembersByState` — returns an empty entity list and no error. -/
theorem empty_results_yield_empty_list_no_error (w : World) (c : Client)
    (congress : Int) (chamber state : String) (district : Int)
    {respA respB respC respN respD respH respS : HttpResponse}
    {bodyA bodyB bodyC bodyN bodyD bodyH bodyS : String}
    {envA : getMembersResponse} {envB envC envH envS : getMembersByStateResponse}
    {envN envD : getMembersInTransitionResponse}
    (hurlA : w.urlErr (c.Endpoint ++ membersPath congress chamber) = none)
    (hsendA : w.send (apiRequest (c.Endpoint ++ membersPath congress chamber) c.Key)
      = .ok respA)
    (hbodyA : respA.bodyRead = .ok bodyA)
    (hdecA : w.unmarshalMembers bodyA = .ok envA)
    (hresA : envA.results = [])
    (hurlB : w.urlErr (c.Endpoint ++ chamberStatePath chamber state) = none)
    (hsendB : w.send (apiRequest (c.Endpoint ++ chamberStatePath chamber state) c.Key)
      = .ok respB)
    (hbodyB : respB.bodyRead = .ok bodyB)
    (hdecB : w.unmarshalMembersByState bodyB = .ok envB)
    (hresB : envB.results = [])
    (hurlC : w.urlErr (c.Endpoint ++ chamberDistrictPath chamber state district) = none)
    (hsendC : w.send (apiRequest (c.Endpoint ++ chamberDistrictPath chamber state district)
      c.Key) = .ok respC)
    (hbodyC : respC.bodyRead = .ok bodyC)
    (hdecC : w.unmarshalMembersByState bodyC = .ok envC)
    (hresC : envC.results = [])
    (hurlN : w.urlErr (c.Endpoint ++ newMembersPath) = none)
    (hsendN : w.send (apiRequest (c.Endpoint ++ newMembersPath) c.Key) = .ok respN)
    (hbodyN : respN.bodyRead = .ok bodyN)
    (hdecN : w.unmarshalTransition bodyN = .ok envN)
    (hresN : envN.results = [])
    (hurlD : w.urlErr (c.Endpoint ++ leavingPath congress chamber) = none)
    (hsendD : w.send (apiRequest (c.Endpoint ++ leavingPath congress chamber) c.Key)
      = .ok respD)
    (hbodyD : respD.bodyRead = .ok bodyD)
    (hdecD : w.unmarshalTransition bodyD = .ok envD)
    (hresD : envD.results = [])
    (hurlH : w.urlErr (c.Endpoint ++ chamberStatePath "house" state) = none)
    (hsendH : w.send (apiRequest (c.Endpoint ++ chamberStatePath "house" state) c.Key)
      = .ok respH)
    (hbodyH : respH.bodyRead = .ok bodyH)
    (hdecH : w.unmarshalMembersByState bodyH = .ok envH)
    (hresH : envH.results = [])
    (hurlS : w.urlErr (c.Endpoint ++ chamberStatePath "senate" state) = none)
    (hsendS : w.send (apiRequest (c.Endpoint ++ chamberStatePath "senate" state) c.Key)
      = .ok respS)
    (hbodyS : respS.bodyRead = .ok bodyS)
    (hdecS : w.unmarshalMembersByState bodyS = .ok envS)
    (hresS : envS.results = []) :
    GetMembers w c congress chamber = ([], none)
      ∧ GetChamberMembersByState w c state chamber = ([], none)
      ∧ GetChamberMembersByDistrict w c state district chamber = ([], none)
      ∧ GetNewMembers w c = ([], none)
      ∧ GetDepartingMembers w c congress chamber = ([], none)
      ∧ GetMembersByState w c state = ([], none) := by
  refine ⟨?_, ?_, ?_, ?_, ?_, ?_⟩
  · simp [GetMembers, newRequest, addHeader_api, membersUrl, getMembersHandle,
      hurlA, hsendA, hbodyA, hdecA, hresA]
  · simp [GetChamberMembersByState, newRequest, addHeader_api, chamberStateUrl,
      membersByStateHandle, hurlB, hsendB, hbodyB, hdecB, hresB]
  · simp [GetChamberMembersByDistrict, newRequest, addHeader_api, chamberDistrictUrl,
      membersByStateHandle, hurlC, hsendC, hbodyC, hdecC, hresC]
  · simp [GetNewMembers, newRequest, addHeader_api, newMembersUrl, newMembersHandle,
      hurlN, hsendN, hbodyN, hdecN, hresN]
  · simp [GetDepartingMembers, newRequest, addHeader_api, leavingUrl, departingHandle,
      departingExtract, hurlD, hsendD, hbodyD, hdecD, hresD]
  · simp [GetMembersByState, GetChamberMembersByState, newRequest, addHeader_api,
      chamberStateUrl, membersByStateHandle, hurlH, hsendH, hbodyH, hdecH, hresH,
      hurlS, hsendS, hbodyS, hdecS, hresS]

/-- Witness for C5 at a concrete world where every envelope decodes with an
empty `results` list. -/
theorem empty_results_yield_empty_list_no_error_witness :
    GetMembers wAllEmpty cexClient 115 "senate" = ([], none)
      ∧ GetChamberMembersByState wAllEmpty cexClient "nj" "senate" = ([], none)
      ∧ GetChamberMembersByDistrict wAllEmpty cexClient "nj" 3 "senate" = ([], none)
      ∧ GetNewMembers wAllEmpty cexClient = ([], none)
      ∧ GetDepartingMembers wAllEmpty cexClient 115 "senate" = ([], none)
      ∧ GetMembersByState wAllEmpty cexClient "nj" = ([], none) :=
  empty_results_yield_empty_list_no_error wAllEmpty cexClient 115 "senate" "nj" 3
    rfl rfl rfl rfl rfl rfl rfl rfl rfl rfl rfl rfl rfl rfl rfl rfl rfl rfl rfl rfl
    rfl rfl rfl rfl rfl rfl rfl rfl rfl rfl rfl rfl rfl rfl rfl

/-! ## Claim C6 -/

/-- A world where every request succeeds but no body unmarshals: the model of
a server answering with a body that is not valid JSON (or not the envelope
shape), on which `json.Unmarshal` fails at every target type. -/
def wBadJson : World :=
  { urlErr := fun _ => none
    send := fun _ => .ok (okResp "<html>not json</html>")
    unmarshalMembers := fun _ => .error "invalid character after top-level value"
    unmarshalMember := fun _ => .error "invalid character after top-level value"
    unmarshalMembersByState := fun _ => .error "invalid character after top-level value"
    unmarshalTransition := fun _ => .error "invalid character after top-level value" }

/-- C6: whenever the response body fails to unmarshal (not valid JSON, or not
the envelope's structural shape), every operation fails with a decode error
and returns no entities: the list-returning operations return the empty list,
and `GetMember` returns the zero `MemberDetails`. -/
theorem invalid_body_decode_error_no_entities (w : World) (c : Client)
    (congress : Int) (chamber state : String) (district : Int) (id : String)
    {respA respM respB respC respN respD : HttpResponse}
    {bodyA bodyM bodyB bodyC bodyN bodyD : String}
    {msgA msgM msgB msgC msgN msgD : String}
    (hurlA : w.urlErr (c.Endpoint ++ membersPath congress chamber) = none)
    (hsendA : w.send (apiRequest (c.Endpoint ++ membersPath congress chamber) c.Key)
      = .ok respA)
    (hbodyA : respA.bodyRead = .ok bodyA)
    (hdecA : w.unmarshalMembers bodyA = .error msgA)
    (hurlM : w.urlErr (c.Endpoint ++ memberPath id) = none)
    (hsendM : w.send (apiRequest (c.Endpoint ++ memberPath id) c.Key) = .ok respM)
    (hbodyM : respM.bodyRead = .ok bodyM)
    (hdecM : w.unmarshalMember bodyM = .error msgM)
    (hurlB : w.urlErr (c.Endpoint ++ chamberStatePath chamber state) = none)
    (hsendB : w.send (apiRequest (c.Endpoint ++ chamberStatePath chamber state) c.Key)
      = .ok respB)
    (hbodyB : respB.bodyRead = .ok bodyB)
    (hdecB : w.unmarshalMembersByState bodyB = .error msgB)
    (hurlC : w.urlErr (c.Endpoint ++ chamberDistrictPath chamber state district) = none)
    (hsendC : w.send (apiRequest (c.Endpoint ++ chamberDistrictPath chamber state district)
      c.Key) = .ok respC)
    (hbodyC : respC.bodyRead = .ok bodyC)
    (hdecC : w.unmarshalMembersByState bodyC = .error msgC)
    (hurlN : w.urlErr (c.Endpoint ++ newMembersPath) = none)
    (hsendN : w.send (apiRequest (c.Endpoint ++ newMembersPath) c.Key) = .ok respN)
    (hbodyN : respN.bodyRead = .ok bodyN)
    (hdecN : w.unmarshalTransition bodyN = .error msgN)
    (hurlD : w.urlErr (c.Endpoint ++ leavingPath congress chamber) = none)
    (hsendD : w.send (apiRequest (c.Endpoint ++ leavingPath congress chamber) c.Key)
      = .ok respD)
    (hbodyD : respD.bodyRead = .ok bodyD)
    (hdecD : w.unmarshalTransition bodyD = .error msgD) :
    GetMembers w c congress chamber = ([], some (GoError.decode msgA))
      ∧ GetMember w c id = (MemberDetails.zero, some (GoError.decode msgM))
      ∧ GetChamberMembersByState w c state chamber = ([], some (GoError.decode msgB))
      ∧ GetChamberMembersByDistrict w c state district chamber
        = ([], some (GoError.decode msgC))
      ∧ GetNewMembers w c = ([], some (GoError.decode msgN))
      ∧ GetDepartingMembers w c congress chamber = ([], some (GoError.decode msgD)) := by
  refine ⟨?_, ?_, ?_, ?_, ?_, ?_⟩
  · simp [GetMembers, newRequest, addHeader_api, membersUrl, getMembersHandle,
      hurlA, hsendA, hbodyA, hdecA]
  · simp [GetMember, newRequest, addHeader_api, memberUrl, getMemberHandle,
      hurlM, hsendM, hbodyM, hdecM]
  · simp [GetChamberMembersByState, newRequest, addHeader_api, chamberStateUrl,
      membersByStateHandle, hurlB, hsendB, hbodyB, hdecB]
  · simp [GetChamberMembersByDistrict, newRequest, addHeader_api, chamberDistrictUrl,
      membersByStateHandle, hurlC, hsendC, hbodyC, hdecC]
  · simp [GetNewMembers, newRequest, addHeader_api, newMembersUrl, newMembersHandle,
      hurlN, hsendN, hbodyN, hdecN]
  · simp [GetDepartingMembers, newRequest, addHeader_api, leavingUrl, departingHandle,
      hurlD, hsendD, hbodyD, hdecD]

/-- Witness for C6 at a concrete world whose bodies never unmarshal. -/
theorem invalid_body_decode_error_no_entities_witness :
    GetMembers wBadJson cexClient 115 "senate"
      = ([], some (GoError.decode "invalid character after top-level value"))
      ∧ GetMember wBadJson cexClient "K000388"
        = (MemberDetails.zero, some (GoError.decode "invalid character after top-level value"))
      ∧ GetChamberMembersByState wBadJson cexClient "nj" "senate"
        = ([], some (GoError.decode "invalid character after top-level value"))
      ∧ GetChamberMembersByDistrict wBadJson cexClient "nj" 3 "senate"
        = ([], some (GoError.decode "invalid character after top-level value"))
      ∧ GetNewMembers wBadJson cexClient
        = ([], some (GoError.decode "invalid character after top-level value"))
      ∧ GetDepartingMembers wBadJson cexClient 115 "senate"
        = ([], some (GoError.decode "invalid character after top-level value")) :=
  invalid_body_decode_error_no_entities wBadJson cexClient 115 "senate" "nj" 3 "K000388"
    rfl rfl rfl rfl rfl rfl rfl rfl rfl rfl rfl rfl rfl rfl rfl rfl rfl rfl rfl rfl
    rfl rfl rfl rfl

/-! ## Claim C7 -/

/-- A world where every network call fails: the model of a connection-refused
or timed-out request.  Its unmarshal oracles still claim success on every
body, so any decode attempt would be visible in the result. -/
def wRefused : World :=
  { wAllEmpty with send := fun _ => .error "connection refused" }

/-- C7: whenever the network call (`client.Do`) fails, every operation fails
with a transport error carrying that failure, and returns no entities.  The
hypotheses say nothing about the world's unmarshal oracles, so the conclusion
holds whatever they are: no decode step influences the result. -/
theorem network_failure_transport_error_no_decode (w : World) (c : Client)
    (congress : Int) (chamber state : String) (district : Int) (id : String)
    {msgA msgM msgB msgC msgN msgD : String}
    (hurlA : w.urlErr (c.Endpoint ++ membersPath congress chamber) = none)
    (hsendA : w.send (apiRequest (c.Endpoint ++ membersPath congress chamber) c.Key)
      = .error msgA)
    (hurlM : w.urlErr (c.Endpoint ++ memberPath id) = none)
    (hsendM : w.send (apiRequest (c.Endpoint ++ memberPath id) c.Key) = .error msgM)
    (hurlB : w.urlErr (c.Endpoint ++ chamberStatePath chamber state) = none)
    (hsendB : w.send (apiRequest (c.Endpoint ++ chamberStatePath chamber state) c.Key)
      = .error msgB)
    (hurlC : w.urlErr (c.Endpoint ++ chamberDistrictPath chamber state district) = none)
    (hsendC : w.send (apiRequest (c.Endpoint ++ chamberDistrictPath chamber state district)
      c.Key) = .error msgC)
    (hurlN : w.urlErr (c.Endpoint ++ newMembersPath) = none)
    (hsendN : w.send (apiRequest (c.Endpoint ++ newMembersPath) c.Key) = .error msgN)
    (hurlD : w.urlErr (c.Endpoint ++ leavingPath congress chamber) = none)
    (hsendD : w.send (apiRequest (c.Endpoint ++ leavingPath congress chamber) c.Key)
      = .error msgD) :
    GetMembers w c congress chamber = ([], some (GoError.transport msgA))
      ∧ GetMember w c id = (MemberDetails.zero, some (GoError.transport msgM))
      ∧ GetChamberMembersByState w c state chamber = ([], some (GoError.transport msgB))
      ∧ GetChamberMembersByDistrict w c state district chamber
        = ([], some (GoError.transport msgC))
      ∧ GetNewMembers w c = ([], some (GoError.transport msgN))
      ∧ GetDepartingMembers w c congress chamber = ([], some (GoError.transport msgD)) := by
  refine ⟨?_, ?_, ?_, ?_, ?_, ?_⟩
  · simp [GetMembers, newRequest, addHeader_api, membersUrl, getMembersHandle,
      hurlA, hsendA]
  · simp [GetMember, newRequest, addHeader_api, memberUrl, getMemberHandle,
      hurlM, hsendM]
  · simp [GetChamberMembersByState, newRequest, addHeader_api, chamberStateUrl,
      membersByStateHandle, hurlB, hsendB]
  · simp [GetChamberMembersByDistrict, newRequest, addHeader_api, chamberDistrictUrl,
      membersByStateHandle, hurlC, hsendC]
  · simp [GetNewMembers, newRequest, addHeader_api, newMembersUrl, newMembersHandle,
      hurlN, hsendN]
  · simp [GetDepartingMembers, newRequest, addHeader_api, leavingUrl, departingHandle,
      hurlD, hsendD]

/-- Witness for C7 at a concrete world whose network calls are refused while
its unmarshal oracles would happily succeed. -/
theorem network_failure_transport_error_no_decode_witness :
    GetMembers wRefused cexClient 115 "senate"
      = ([], some (GoError.transport "connection refused"))
      ∧ GetMember wRefused cexClient "K000388"
        = (MemberDetails.zero, some (GoError.transport "connection refused"))
      ∧ GetChamberMembersByState wRefused cexClient "nj" "senate"
        = ([], some (GoError.transport "connection refused"))
      ∧ GetChamberMembersByDistrict wRefused cexClient "nj" 3 "senate"
        = ([], some (GoError.transport "connection refused"))
      ∧ GetNewMembers wRefused cexClient
        = ([], some (GoError.transport "connection refused"))
      ∧ GetDepartingMembers wRefused cexClient 115 "senate"
        = ([], some (GoError.transport "connection refused")) :=
  network_failure_transport_error_no_decode wRefused cexClient 115 "senate" "nj" 3 "K000388"
    rfl rfl rfl rfl rfl rfl rfl rfl rfl rfl rfl rfl

/-! ## Claim C8 -/

/-- C8: whenever request construction succeeds, every operation issues exactly
one `GET` request whose URL is the client's base endpoint concatenated with the
endpoint's rendered path template (congress number, chamber, state, district
and member ID inserted verbatim, unvalidated), carrying the API key as the
single `X-API-Key` header — and the operation's result is entirely determined
by the world's answer to that request. -/
theorem request_url_and_api_key_header (w : World) (c : Client)
    (congress : Int) (chamber state : String) (district : Int) (id : String)
    (hurlA : w.urlErr (c.Endpoint ++ membersPath congress chamber) = none)
    (hurlM : w.urlErr (c.Endpoint ++ memberPath id) = none)
    (hurlB : w.urlErr (c.Endpoint ++ chamberStatePath chamber state) = none)
    (hurlC : w.urlErr (c.Endpoint ++ chamberDistrictPath chamber state district) = none)
    (hurlN : w.urlErr (c.Endpoint ++ newMembersPath) = none)
    (hurlD : w.urlErr (c.Endpoint ++ leavingPath congress chamber) = none) :
    GetMembers w c congress chamber
      = getMembersHandle w
          (w.send (apiRequest (c.Endpoint ++ membersPath congress chamber) c.Key))
      ∧ GetMember w c id
        = getMemberHandle w (w.send (apiRequest (c.Endpoint ++ memberPath id) c.Key))
      ∧ GetChamberMembersByState w c state chamber
        = membersByStateHandle w
            (w.send (apiRequest (c.Endpoint ++ chamberStatePath chamber state) c.Key))
      ∧ GetChamberMembersByDistrict w c state district chamber
        = membersByStateHandle w
            (w.send
              (apiRequest (c.Endpoint ++ chamberDistrictPath chamber state district) c.Key))
      ∧ GetNewMembers w c
        = newMembersHandle w (w.send (apiRequest (c.Endpoint ++ newMembersPath) c.Key))
      ∧ GetDepartingMembers w c congress chamber
        = departingHandle w
            (w.send (apiRequest (c.Endpoint ++ leavingPath congress chamber) c.Key)) := by
  refine ⟨?_, ?_, ?_, ?_, ?_, ?_⟩
  · simp [GetMembers, newRequest, addHeader_api, membersUrl, hurlA]
  · simp [GetMember, newRequest, addHeader_api, memberUrl, hurlM]
  · simp [GetChamberMembersByState, newRequest, addHeader_api, chamberStateUrl, hurlB]
  · simp [GetChamberMembersByDistrict, newRequest, addHeader_api, chamberDistrictUrl, hurlC]
  · simp [GetNewMembers, newRequest, addHeader_api, newMembersUrl, hurlN]
  · simp [GetDepartingMembers, newRequest, addHeader_api, leavingUrl, hurlD]

/-- Witness for C8 at a concrete world and client. -/
theorem request_url_and_api_key_header_witness :
    GetMembers wAllEmpty cexClient 115 "senate"
      = getMembersHandle wAllEmpty
          (wAllEmpty.send
            (apiRequest (cexClient.Endpoint ++ membersPath 115 "senate") cexClient.Key))
      ∧ GetMember wAllEmpty cexClient "K000388"
        = getMemberHandle wAllEmpty
            (wAllEmpty.send
              (apiRequest (cexClient.Endpoint ++ memberPath "K000388") cexClient.Key))
      ∧ GetChamberMembersByState wAllEmpty cexClient "nj" "senate"
        = membersByStateHandle wAllEmpty
            (wAllEmpty.send
              (apiRequest (cexClient.Endpoint ++ chamberStatePath "senate" "nj")
                cexClient.Key))
      ∧ GetChamberMembersByDistrict wAllEmpty cexClient "nj" 3 "senate"
        = membersByStateHandle wAllEmpty
            (wAllEmpty.send
              (apiRequest (cexClient.Endpoint ++ chamberDistrictPath "senate" "nj" 3)
                cexClient.Key))
      ∧ GetNewMembers wAllEmpty cexClient
        = newMembersHandle wAllEmpty
            (wAllEmpty.send (apiRequest (cexClient.Endpoint ++ newMembersPath) cexClient.Key))
      ∧ GetDepartingMembers wAllEmpty cexClient 115 "senate"
        = departingHandle wAllEmpty
            (wAllEmpty.send
              (apiRequest (cexClient.Endpoint ++ leavingPath 115 "senate") cexClient.Key)) :=
  request_url_and_api_key_header wAllEmpty cexClient 115 "senate" "nj" 3 "K000388"
    rfl rfl rfl rfl rfl rfl

/-! ## Claim C9 -/

def respBody200 : HttpResponse :=
  { statusCode := 200, bodyRead := .ok "BODY" }

def respBody500 : HttpResponse :=
  { statusCode := 500, bodyRead := .ok "BODY" }

/-- A world answering every request with a 200 response. -/
def wStatus200 : World :=
  { wAllEmpty with send := fun _ => .ok respBody200 }

/-- A world answering every request with a 500 response carrying the same body. -/
def wStatus500 : World :=
  { wAllEmpty with send := fun _ => .ok respBody500 }

/-- C9: the HTTP status code is never inspected.  Two runs of the same
operation against worlds that parse URLs and unmarshal bodies identically and
whose responses read to the same body produce identical entities and errors,
whatever the two responses' status codes are — in particular a non-2xx
response with a valid-envelope body decodes exactly like a 2xx response. -/
theorem status_code_never_inspected (w₁ w₂ : World) (c : Client)
    (congress : Int) (chamber state : String) (district : Int) (id : String)
    (r₁ r₂ : HttpResponse)
    (hurlEq : w₁.urlErr = w₂.urlErr)
    (hdecEqA : w₁.unmarshalMembers = w₂.unmarshalMembers)
    (hdecEqM : w₁.unmarshalMember = w₂.unmarshalMember)
    (hdecEqB : w₁.unmarshalMembersByState = w₂.unmarshalMembersByState)
    (hdecEqT : w₁.unmarshalTransition = w₂.unmarshalTransition)
    (hb : r₁.bodyRead = r₂.bodyRead)
    (hurlA : w₁.urlErr (c.Endpoint ++ membersPath congress chamber) = none)
    (hsendA₁ : w₁.send (apiRequest (c.Endpoint ++ membersPath congress chamber) c.Key)
      = .ok r₁)
    (hsendA₂ : w₂.send (apiRequest (c.Endpoint ++ membersPath congress chamber) c.Key)
      = .ok r₂)
    (hurlM : w₁.urlErr (c.Endpoint ++ memberPath id) = none)
    (hsendM₁ : w₁.send (apiRequest (c.Endpoint ++ memberPath id) c.Key) = .ok r₁)
    (hsendM₂ : w₂.send (apiRequest (c.Endpoint ++ memberPath id) c.Key) = .ok r₂)
    (hurlB : w₁.urlErr (c.Endpoint ++ chamberStatePath chamber state) = none)
    (hsendB₁ : w₁.send (apiRequest (c.Endpoint ++ chamberStatePath chamber state) c.Key)
      = .ok r₁)
    (hsendB₂ : w₂.send (apiRequest (c.Endpoint ++ chamberStatePath chamber state) c.Key)
      = .ok r₂)
    (hurlC : w₁.urlErr (c.Endpoint ++ chamberDistrictPath chamber state district) = none)
    (hsendC₁ : w₁.send (apiRequest (c.Endpoint ++ chamberDistrictPath chamber state district)
      c.Key) = .ok r₁)
    (hsendC₂ : w₂.send (apiRequest (c.Endpoint ++ chamberDistrictPath chamber state district)
      c.Key) = .ok r₂)
    (hurlN : w₁.urlErr (c.Endpoint ++ newMembersPath) = none)
    (hsendN₁ : w₁.send (apiRequest (c.Endpoint ++ newMembersPath) c.Key) = .ok r₁)
    (hsendN₂ : w₂.send (apiRequest (c.Endpoint ++ newMembersPath) c.Key) = .ok r₂)
    (hurlD : w₁.urlErr (c.Endpoint ++ leavingPath congress chamber) = none)
    (hsendD₁ : w₁.send (apiRequest (c.Endpoint ++ leavingPath congress chamber) c.Key)
      = .ok r₁)
    (hsendD₂ : w₂.send (apiRequest (c.Endpoint ++ leavingPath congress chamber) c.Key)
      = .ok r₂) :
    GetMembers w₁ c congress chamber = GetMembers w₂ c congress chamber
      ∧ GetMember w₁ c id = GetMember w₂ c id
      ∧ GetChamberMembersByState w₁ c state chamber
        = GetChamberMembersByState w₂ c state chamber
      ∧ GetChamberMembersByDistrict w₁ c state district chamber
        = GetChamberMembersByDistrict w₂ c state district chamber
      ∧ GetNewMembers w₁ c = GetNewMembers w₂ c
      ∧ GetDepartingMembers w₁ c congress chamber
        = GetDepartingMembers w₂ c congress chamber := by
  refine ⟨?_, ?_, ?_, ?_, ?_, ?_⟩
  · simp [GetMembers, newRequest, addHeader_api, membersUrl, ← hurlEq, hurlA,
      getMembersHandle, hsendA₁, hsendA₂, hb, hdecEqA]
  · simp [GetMember, newRequest, addHeader_api, memberUrl, ← hurlEq, hurlM,
      getMemberHandle, hsendM₁, hsendM₂, hb, hdecEqM]
  · simp [GetChamberMembersByState, newRequest, addHeader_api, chamberStateUrl,
      ← hurlEq, hurlB, membersByStateHandle, hsendB₁, hsendB₂, hb, hdecEqB]
  · simp [GetChamberMembersByDistrict, newRequest, addHeader_api, chamberDistrictUrl,
      ← hurlEq, hurlC, membersByStateHandle, hsendC₁, hsendC₂, hb, hdecEqB]
  · simp [GetNewMembers, newRequest, addHeader_api, newMembersUrl, ← hurlEq, hurlN,
      newMembersHandle, hsendN₁, hsendN₂, hb, hdecEqT]
  · simp [GetDepartingMembers, newRequest, addHeader_api, leavingUrl, ← hurlEq, hurlD,
      departingHandle, hsendD₁, hsendD₂, hb, hdecEqT]

/-- Witness for C9: a 200 world and a 500 world with the same body give the
same results on every operation. -/
theorem status_code_never_inspected_witness :
    GetMembers wStatus200 cexClient 115 "senate" = GetMembers wStatus500 cexClient 115 "senate"
      ∧ GetMember wStatus200 cexClient "K000388" = GetMember wStatus500 cexClient "K000388"
      ∧ GetChamberMembersByState wStatus200 cexClient "nj" "senate"
        = GetChamberMembersByState wStatus500 cexClient "nj" "senate"
      ∧ GetChamberMembersByDistrict wStatus200 cexClient "nj" 3 "senate"
        = GetChamberMembersByDistrict wStatus500 cexClient "nj" 3 "senate"
      ∧ GetNewMembers wStatus200 cexClient = GetNewMembers wStatus500 cexClient
      ∧ GetDepartingMembers wStatus200 cexClient 115 "senate"
        = GetDepartingMembers wStatus500 cexClient 115 "senate" :=
  status_code_never_inspected wStatus200 wStatus500 cexClient 115 "senate" "nj" 3 "K000388"
    respBody200 respBody500 rfl rfl rfl rfl rfl rfl rfl rfl rfl rfl rfl rfl rfl rfl rfl
    rfl rfl rfl rfl rfl rfl rfl rfl rfl

/-! ## Claim C10 -/

def oneZeroMemberEnv : getMemberResponse :=
  { status := "OK", copyright := "c", results := [MemberDetails.zero] }

/-- A world where the member-detail envelope holds exactly one member whose
fields are all at their zero values. -/
def wMemberZero : World :=
  { wAllEmpty with unmarshalMember := fun _ => .ok oneZeroMemberEnv }

/-- C10: for every well-formed member-detail envelope whose `results` list is
empty, `GetMember` returns the zero `MemberDetails` (every field empty, false
or nil) with no error — the same output it produces for an envelope holding a
member whose fields are all zero, so a caller cannot tell "not found" from an
all-empty member. -/
theorem getMember_empty_results_zero_value (w : World) (c : Client) (id : String)
    {resp : HttpResponse} {body : String} {env : getMemberResponse}
    (hurl : w.urlErr (c.Endpoint ++ memberPath id) = none)
    (hsend : w.send (apiRequest (c.Endpoint ++ memberPath id) c.Key) = .ok resp)
    (hbody : resp.bodyRead = .ok body)
    (hdec : w.unmarshalMember body = .ok env) :
    (env.results = [] → GetMember w c id = (MemberDetails.zero, none))
      ∧ (env.results = [MemberDetails.zero]
        → GetMember w c id = (MemberDetails.zero, none)) := by
  constructor <;> intro hres <;>
    simp [GetMember, newRequest, addHeader_api, memberUrl, getMemberHandle,
      hurl, hsend, hbody, hdec, hres]

/-- Witness for C10: the empty-results world and the all-zero-member world
produce the same `GetMember` output. -/
theorem getMember_empty_results_zero_value_witness :
    GetMember wAllEmpty cexClient "K000388" = (MemberDetails.zero, none)
      ∧ GetMember wMemberZero cexClient "K000388" = (MemberDetails.zero, none) :=
  ⟨(getMember_empty_results_zero_value wAllEmpty cexClient "K000388"
      rfl rfl rfl rfl).1 rfl,
   (getMember_empty_results_zero_value wMemberZero cexClient "K000388"
      rfl rfl rfl rfl).2 rfl⟩

/-! ## Claim C1 -/

theorem membersByStateHandle_error_empty (w : World) (r : Except String HttpResponse)
    (e : GoError) (h : (membersByStateHandle w r).2 = some e) :
    membersByStateHandle w r = ([], some e) := by
  rcases r with e1 | resp
  · simp [membersByStateHandle] at h ⊢
    exact h
  · rcases hb : resp.bodyRead with e1 | body
    · simp [membersByStateHandle, hb] at h ⊢
      exact h
    · rcases hd : w.unmarshalMembersByState body with e1 | env
      · simp [membersByStateHandle, hb, hd] at h ⊢
        exact h
      · simp [membersByStateHandle, hb, hd] at h

/-- On any failure, `GetChamberMembersByState` returns the error together with
an empty member list: its named return `members` is only assigned after a
fully successful pipeline. -/
theorem getChamberMembersByState_error_empty (w : World) (c : Client) (st ch : String)
    (e : GoError) (h : (GetChamberMembersByState w c st ch).2 = some e) :
    GetChamberMembersByState w c st ch = ([], some e) := by
  unfold GetChamberMembersByState newRequest at h ⊢
  rcases hu : w.urlErr (c.Endpoint ++ "/members/" ++ ch ++ "/" ++ st ++ "/current.json")
    with _ | e1
  · simp only [hu] at h ⊢
    exact membersByStateHandle_error_empty w _ e h
  · simp only [hu] at h ⊢
    simp at h ⊢
    exact h

/-- A world where the senate members-by-state request is refused while the
house request succeeds with one entity. -/
def wSenateDown : World :=
  { wAllEmpty with
    send := fun req =>
      if req.url = cexClient.Endpoint ++ chamberStatePath "senate" "nj" then
        .error "connection refused"
      else .ok (okResp "BODY")
    unmarshalMembersByState := fun _ => .ok oneSearchEnv }

/-- C1 counterexample: with the house sub-call succeeding (one entity) and the
senate sub-call failing, `GetMembersByState` returns the senate error but
hands back the house entity alongside it — the returned entity list is not
empty, contradicting the claim that already-fetched entities are discarded. -/
theorem getMembersByState_keeps_house_on_senate_failure :
    GetMembersByState wSenateDown cexClient "nj"
      = ([MemberSearch.zero], some (GoError.transport "connection refused"))
      ∧ ([MemberSearch.zero] : List MemberSearch) ≠ [] := by
  constructor
  · rfl
  · simp

/-- C1 amended: if the house sub-call fails, the composite fails with that
error and returns no entities; if the house sub-call succeeds and the senate
sub-call fails, the composite fails with the senate error but returns the
already-fetched house entities alongside it (a Go caller is expected to
disregard the list when the error is non-nil). -/
theorem getMembersByState_failure_semantics (w : World) (c : Client) (s : String) :
    (∀ e, (GetChamberMembersByState w c s "house").2 = some e →
      GetMembersByState w c s = ([], some e))
      ∧ (∀ hm e, GetChamberMembersByState w c s "house" = (hm, none) →
          (GetChamberMembersByState w c s "senate").2 = some e →
          GetMembersByState w c s = (hm, some e)) := by
  constructor
  · intro e h
    have h2 := getChamberMembersByState_error_empty w c s "house" e h
    simp [GetMembersByState, h2]
  · intro hm e hH hS
    rcases hS2 : GetChamberMembersByState w c s "senate" with ⟨ms, err⟩
    rw [hS2] at hS
    simp at hS
    subst hS
    simp [GetMembersByState, hH, hS2]

/-- Witness for the amended C1 at the concrete senate-down world. -/
theorem getMembersByState_failure_semantics_witness :
    GetMembersByState wSenateDown cexClient "nj"
      = ([MemberSearch.zero], some (GoError.transport "connection refused")) :=
  (getMembersByState_failure_semantics wSenateDown cexClient "nj").2
    [MemberSearch.zero] (GoError.transport "connection refused") rfl rfl

/-! ## Claim C2 -/

def threeGroupTransitionEnv : getMembersInTransitionResponse :=
  { status := "OK", copyright := "c", results :=
      [ { members := [MemberInTransition.zero], congress := "115", chamber := "house" },
        { members := [MemberInTransition.zero], congress := "115", chamber := "senate" },
        { members := [MemberInTransition.zero], congress := "115", chamber := "joint" } ] }

/-- A world whose departing-members envelope has three groups, each holding
one member. -/
def wThreeGroups : World :=
  { wAllEmpty with unmarshalTransition := fun _ => .ok threeGroupTransitionEnv }

/-- C2 counterexample: on a well-formed three-group departing envelope,
`GetDepartingMembers` returns only the first two groups' members (two
entities), while the concatenation of every group's members has three — the
third group's entity is omitted, contradicting the claim for N greater
than 2. -/
theorem getDepartingMembers_drops_third_group :
    GetDepartingMembers wThreeGroups cexClient 115 "senate"
      = ([MemberInTransition.zero, MemberInTransition.zero], none)
      ∧ (threeGroupTransitionEnv.results.map fun g => g.members).flatten
        = [MemberInTransition.zero, MemberInTransition.zero, MemberInTransition.zero]
      ∧ ([MemberInTransition.zero, MemberInTransition.zero] : List MemberInTransition)
        ≠ [MemberInTransition.zero, MemberInTransition.zero, MemberInTransition.zero] := by
  refine ⟨rfl, rfl, ?_⟩
  simp

/-- C2 amended: for every well-formed departing-members envelope,
`GetDepartingMembers` returns the concatenation of the members of at most the
first two groups — all of them when the envelope has zero, one or two groups,
and only the first two groups' members (in group order, intra-group order
preserved) when it has more; groups after the second are ignored. -/
theorem getDepartingMembers_first_two_groups (w : World) (c : Client)
    (congress : Int) (chamber : String)
    {resp : HttpResponse} {body : String} {env : getMembersInTransitionResponse}
    (hurl : w.urlErr (c.Endpoint ++ leavingPath congress chamber) = none)
    (hsend : w.send (apiRequest (c.Endpoint ++ leavingPath congress chamber) c.Key)
      = .ok resp)
    (hbody : resp.bodyRead = .ok body)
    (hdec : w.unmarshalTransition body = .ok env) :
    (env.results = [] → GetDepartingMembers w c congress chamber = ([], none))
      ∧ (∀ g, env.results = [g]
        → GetDepartingMembers w c congress chamber = (g.members, none))
      ∧ (∀ g₁ g₂ rest, env.results = g₁ :: g₂ :: rest
        → GetDepartingMembers w c congress chamber
          = (g₁.members ++ g₂.members, none)) := by
  refine ⟨fun hres => ?_, fun g hres => ?_, fun g₁ g₂ rest hres => ?_⟩ <;>
    simp [GetDepartingMembers, newRequest, addHeader_api, leavingUrl, departingHandle,
      departingExtract, hurl, hsend, hbody, hdec, hres]

/-- Witness for the amended C2 at the concrete three-group world. -/
theorem getDepartingMembers_first_two_groups_witness :
    GetDepartingMembers wThreeGroups cexClient 115 "senate"
      = ([MemberInTransition.zero, MemberInTransition.zero], none) :=
  (getDepartingMembers_first_two_groups wThreeGroups cexClient 115 "senate"
      rfl rfl rfl rfl).2.2 _ _ _ rfl
